import Mathlib

/-!
Verification development for `electrum/constants.py` of the electrum-aipg
repository: the consensus-parameter registry (network profiles, checkpoint
arithmetic, extended-key version maps, asset burn tables, and the module-level
active-network selector).

Python dictionaries are modelled as insertion-ordered association lists with
unique keys; Python `int` is modelled as `Int` (arbitrary precision), and the
float burn amounts are modelled as exact rationals (only their sign matters
for the properties below).  Fallible Python code (name resolution, `len` on a
JSON value, hex decoding) is modelled with `Except` / `Option`.
-/

namespace ElectrumConstants

/-- Insertion into a Python dict modelled as an association list: if the key is
already present its value is overwritten in place, otherwise the pair is
appended at the end (insertion order). -/
def dictInsert {α β : Type} [DecidableEq α] (d : List (α × β)) (k : α) (v : β) :
    List (α × β) :=
  if d.any (fun p => p.1 = k) then
    d.map (fun p => if p.1 = k then (k, v) else p)
  else
    d ++ [(k, v)]

/-- Python `d[k]` as an optional lookup (first matching key). -/
def dictLookup {α β : Type} [DecidableEq α] (d : List (α × β)) (k : α) :
    Option β :=
  (d.find? (fun p => p.1 = k)).map (fun p => p.2)

/-- `inv_dict(d) = {v: k for k, v in d.items()}` from `constants.py`: a dict
comprehension over the items of `d`, built by successive insertion, so a value
occurring twice in `d` silently overwrites the earlier inverse entry. -/
def inv_dict {α β : Type} [DecidableEq α] [DecidableEq β]
    (d : List (α × β)) : List (β × α) :=
  d.foldl (fun acc p => dictInsert acc p.2 p.1) []

/-- `AIPGMainnet.XPRV_HEADERS` literal. -/
def mainnetXPRV_HEADERS : List (String × Nat) :=
  [("standard", 0x0488ade4),
   ("p2wpkh-p2sh", 0x049d7878),
   ("p2wsh-p2sh", 0x0295b005),
   ("p2wpkh", 0x04b2430c),
   ("p2wsh", 0x02aa7a99)]

/-- `AIPGMainnet.XPUB_HEADERS` literal. -/
def mainnetXPUB_HEADERS : List (String × Nat) :=
  [("standard", 0x0488b21e),
   ("p2wpkh-p2sh", 0x049d7cb2),
   ("p2wsh-p2sh", 0x0295b43f),
   ("p2wpkh", 0x04b24746),
   ("p2wsh", 0x02aa7ed3)]

/-- `AIPGTestnet.XPRV_HEADERS` literal. -/
def testnetXPRV_HEADERS : List (String × Nat) :=
  [("standard", 0x04358394),
   ("p2wpkh-p2sh", 0x044a4e28),
   ("p2wsh-p2sh", 0x024285b5),
   ("p2wpkh", 0x045f18bc),
   ("p2wsh", 0x02575048)]

/-- `AIPGTestnet.XPUB_HEADERS` literal. -/
def testnetXPUB_HEADERS : List (String × Nat) :=
  [("standard", 0x043587cf),
   ("p2wpkh-p2sh", 0x044a5262),
   ("p2wsh-p2sh", 0x024289ef),
   ("p2wpkh", 0x045f1cf6),
   ("p2wsh", 0x02575483)]

/-- A private-key version map assigning the same version integer to the two
distinct scheme identifiers `standard` and `p2wpkh` (the scenario of the
duplicate-version claim). -/
def dupVersionMap : List (String × Nat) :=
  [("standard", 0x0488ade4), ("p2wpkh", 0x0488ade4)]

/-- Errors raised by the modelled Python fragments. -/
inductive PyErr : Type
  | typeError
  | nameError (missing : String)
deriving DecidableEq

/-- JSON values as produced by `json.loads` (numbers restricted to integers,
which covers the bundled checkpoint resources; only the shapes and lengths of
decoded values matter for the claims below). -/
inductive PyJson : Type
  | null
  | bool (b : Bool)
  | num (n : Int)
  | str (s : String)
  | arr (xs : List PyJson)
  | obj (kvs : List (String × PyJson))

/-- Python `len()` on a JSON value: defined for lists, dicts and strings, a
TypeError otherwise. -/
def pyLen : PyJson → Except PyErr Nat
  | PyJson.arr xs => Except.ok xs.length
  | PyJson.obj kvs => Except.ok kvs.length
  | PyJson.str s => Except.ok s.length
  | _ => Except.error PyErr.typeError

/-- Outcome of opening and parsing one bundled resource file: the file may be
missing (`open` raises), malformed (`json.loads` raises), or parse to a JSON
value. -/
inductive ReadOutcome : Type
  | missing
  | malformed
  | parsed (v : PyJson)

/-- `read_json(filename, default)` from `constants.py`: read and parse the
bundled file; the bare `except:` turns every failure into the supplied
default. The filesystem is passed explicitly as a map from filename to
outcome. -/
def read_json (fs : String → ReadOutcome) (filename : String)
    (default : PyJson) : PyJson :=
  match fs filename with
  | ReadOutcome.parsed v => v
  | ReadOutcome.missing => default
  | ReadOutcome.malformed => default

/-- The `BurnAmounts` NamedTuple: nine burn amounts, one per privileged asset
operation kind.  The Python float literals `0.5` and `0.01` are modelled as
the exact rationals `1/2` and `1/100` (only sign and distinctness matter
here). -/
structure BurnAmounts : Type where
  IssueAssetBurnAmount : ℚ
  ReissueAssetBurnAmount : ℚ
  IssueSubAssetBurnAmount : ℚ
  IssueUniqueAssetBurnAmount : ℚ
  IssueMsgChannelAssetBurnAmount : ℚ
  IssueQualifierAssetBurnAmount : ℚ
  IssueSubQualifierAssetBurnAmount : ℚ
  IssueRestrictedAssetBurnAmount : ℚ
  AddNullQualifierTagBurnAmount : ℚ

/-- The `BurnAddresses` NamedTuple: ten burn addresses, one per privileged
asset operation kind plus the global catch-all. -/
structure BurnAddresses : Type where
  IssueAssetBurnAddress : String
  ReissueAssetBurnAddress : String
  IssueSubAssetBurnAddress : String
  IssueUniqueAssetBurnAddress : String
  IssueMsgChannelAssetBurnAddress : String
  IssueQualifierAssetBurnAddress : String
  IssueSubQualifierAssetBurnAddress : String
  IssueRestrictedAssetBurnAddress : String
  AddNullQualifierTagBurnAddress : String
  GlobalBurnAddress : String

/-- The fixed enumeration of the nine privileged asset-operation kinds that
carry a burn amount. -/
inductive AssetOpKind : Type
  | issueAsset
  | reissueAsset
  | issueSubAsset
  | issueUniqueAsset
  | issueMsgChannelAsset
  | issueQualifierAsset
  | issueSubQualifierAsset
  | issueRestrictedAsset
  | addNullQualifierTag
deriving DecidableEq

/-- The ten address-bearing operation kinds: the nine above plus the global
catch-all burn address. -/
inductive AddressedOpKind : Type
  | issueAsset
  | reissueAsset
  | issueSubAsset
  | issueUniqueAsset
  | issueMsgChannelAsset
  | issueQualifierAsset
  | issueSubQualifierAsset
  | issueRestrictedAsset
  | addNullQualifierTag
  | globalBurn
deriving DecidableEq

/-- Field lookup of the burn amount for an asset-operation kind; totality of
this function over `AssetOpKind` is the exhaustiveness of the table. -/
def burnAmount (t : BurnAmounts) : AssetOpKind → ℚ
  | AssetOpKind.issueAsset => t.IssueAssetBurnAmount
  | AssetOpKind.reissueAsset => t.ReissueAssetBurnAmount
  | AssetOpKind.issueSubAsset => t.IssueSubAssetBurnAmount
  | AssetOpKind.issueUniqueAsset => t.IssueUniqueAssetBurnAmount
  | AssetOpKind.issueMsgChannelAsset => t.IssueMsgChannelAssetBurnAmount
  | AssetOpKind.issueQualifierAsset => t.IssueQualifierAssetBurnAmount
  | AssetOpKind.issueSubQualifierAsset => t.IssueSubQualifierAssetBurnAmount
  | AssetOpKind.issueRestrictedAsset => t.IssueRestrictedAssetBurnAmount
  | AssetOpKind.addNullQualifierTag => t.AddNullQualifierTagBurnAmount

/-- Field lookup of the burn address for an address-bearing operation kind;
totality of this function over `AddressedOpKind` is the exhaustiveness of the
table. -/
def burnAddress (t : BurnAddresses) : AddressedOpKind → String
  | AddressedOpKind.issueAsset => t.IssueAssetBurnAddress
  | AddressedOpKind.reissueAsset => t.ReissueAssetBurnAddress
  | AddressedOpKind.issueSubAsset => t.IssueSubAssetBurnAddress
  | AddressedOpKind.issueUniqueAsset => t.IssueUniqueAssetBurnAddress
  | AddressedOpKind.issueMsgChannelAsset => t.IssueMsgChannelAssetBurnAddress
  | AddressedOpKind.issueQualifierAsset => t.IssueQualifierAssetBurnAddress
  | AddressedOpKind.issueSubQualifierAsset => t.IssueSubQualifierAssetBurnAddress
  | AddressedOpKind.issueRestrictedAsset => t.IssueRestrictedAssetBurnAddress
  | AddressedOpKind.addNullQualifierTag => t.AddNullQualifierTagBurnAddress
  | AddressedOpKind.globalBurn => t.GlobalBurnAddress

/-- `AIPGMainnet.BURN_AMOUNTS` literal (0.5 and 0.01 as exact rationals). -/
def mainnetBURN_AMOUNTS : BurnAmounts where
  IssueAssetBurnAmount := 50
  ReissueAssetBurnAmount := 10
  IssueSubAssetBurnAmount := 10
  IssueUniqueAssetBurnAmount := 1/2
  IssueMsgChannelAssetBurnAmount := 10
  IssueQualifierAssetBurnAmount := 100
  IssueSubQualifierAssetBurnAmount := 10
  IssueRestrictedAssetBurnAmount := 150
  AddNullQualifierTagBurnAmount := 1/100

/-- `AIPGTestnet.BURN_AMOUNTS` literal (same amounts as mainnet). -/
def testnetBURN_AMOUNTS : BurnAmounts where
  IssueAssetBurnAmount := 50
  ReissueAssetBurnAmount := 10
  IssueSubAssetBurnAmount := 10
  IssueUniqueAssetBurnAmount := 1/2
  IssueMsgChannelAssetBurnAmount := 10
  IssueQualifierAssetBurnAmount := 100
  IssueSubQualifierAssetBurnAmount := 10
  IssueRestrictedAssetBurnAmount := 150
  AddNullQualifierTagBurnAmount := 1/100

/-- `AIPGMainnet.BURN_ADDRESSES` literal. -/
def mainnetBURN_ADDRESSES : BurnAddresses where
  IssueAssetBurnAddress := "AIissueAssetXXXXXXXXXXXXXXXXXhhZGt"
  ReissueAssetBurnAddress := "AIReissueAssetXXXXXXXXXXXXXXVEFAWu"
  IssueSubAssetBurnAddress := "AIissueSubAssetXXXXXXXXXXXXXWcwhwL"
  IssueUniqueAssetBurnAddress := "AIissueUniqueAssetXXXXXXXXXXWEAe58"
  IssueMsgChannelAssetBurnAddress := "AIissueMsgChanneLAssetXXXXXXSjHvAY"
  IssueQualifierAssetBurnAddress := "AIissueQuaLifierXXXXXXXXXXXXUgEDbC"
  IssueSubQualifierAssetBurnAddress := "AIissueSubQuaLifierXXXXXXXXXVTzvv5"
  IssueRestrictedAssetBurnAddress := "AIissueRestrictedXXXXXXXXXXXXzJZ1q"
  AddNullQualifierTagBurnAddress := "AIaddTagBurnXXXXXXXXXXXXXXXXZQm5ya"
  GlobalBurnAddress := "AIBurnXXXXXXXXXXXXXXXXXXXXXXWUo9FV"

/-- `AIPGTestnet.BURN_ADDRESSES` literal. -/
def testnetBURN_ADDRESSES : BurnAddresses where
  IssueAssetBurnAddress := "n1issueAssetXXXXXXXXXXXXXXXXWdnemQ"
  ReissueAssetBurnAddress := "n1ReissueAssetXXXXXXXXXXXXXXWG9NLd"
  IssueSubAssetBurnAddress := "n1issueSubAssetXXXXXXXXXXXXXbNiH6v"
  IssueUniqueAssetBurnAddress := "n1issueUniqueAssetXXXXXXXXXXS4695i"
  IssueMsgChannelAssetBurnAddress := "n1issueMsgChanneLAssetXXXXXXT2PBdD"
  IssueQualifierAssetBurnAddress := "n1issueQuaLifierXXXXXXXXXXXXUysLTj"
  IssueSubQualifierAssetBurnAddress := "n1issueSubQuaLifierXXXXXXXXXYffPLh"
  IssueRestrictedAssetBurnAddress := "n1issueRestrictedXXXXXXXXXXXXZVT9V"
  AddNullQualifierTagBurnAddress := "n1addTagBurnXXXXXXXXXXXXXXXXX5oLMH"
  GlobalBurnAddress := "AcYHNBj8C6nCFSpu1ANsJxturWp31W32cd"

/-- A network profile, the record of class attributes that `AIPGMainnet` and
`AIPGTestnet` supply on top of `AbstractNet`.  Only the fields the verified
claims touch are carried. -/
structure NetProfile : Type where
  NET_NAME : String
  TESTNET : Bool
  WIF_PREFIX : Nat
  ADDRTYPE_P2PKH : Nat
  ADDRTYPE_P2SH : Nat
  ADDRTYPE_P2SH_ALT : Nat
  SEGWIT_HRP : String
  GENESIS : String
  CHECKPOINTS : PyJson
  DGW_CHECKPOINTS : PyJson
  DGW_CHECKPOINTS_SPACING : Int
  DGW_CHECKPOINTS_START : Int
  MATURE : Int
  XPRV_HEADERS : List (String × Nat)
  XPRV_HEADERS_INV : List (Nat × String)
  XPUB_HEADERS : List (String × Nat)
  XPUB_HEADERS_INV : List (Nat × String)
  BURN_AMOUNTS : BurnAmounts
  BURN_ADDRESSES : BurnAddresses

/-- The `AIPGMainnet` class of `constants.py`, as a record constructed from
the bundled resources `fs` (checkpoint tables come from `read_json` with the
empty list as default). -/
def AIPGMainnet (fs : String → ReadOutcome) : NetProfile where
  NET_NAME := "mainnet"
  TESTNET := false
  WIF_PREFIX := 128
  ADDRTYPE_P2PKH := 23
  ADDRTYPE_P2SH := 23
  ADDRTYPE_P2SH_ALT := 23
  SEGWIT_HRP := "rc"
  GENESIS := "000000fe8c99a7aacc5aff074278a8378e625c0d02e4894db8f09bab185f4eb6"
  CHECKPOINTS := read_json fs "checkpoints.json" (PyJson.arr [])
  DGW_CHECKPOINTS := read_json fs "checkpoints_dgw.json" (PyJson.arr [])
  DGW_CHECKPOINTS_SPACING := 2016
  DGW_CHECKPOINTS_START := 168 * 2016
  MATURE := 60
  XPRV_HEADERS := mainnetXPRV_HEADERS
  XPRV_HEADERS_INV := inv_dict mainnetXPRV_HEADERS
  XPUB_HEADERS := mainnetXPUB_HEADERS
  XPUB_HEADERS_INV := inv_dict mainnetXPUB_HEADERS
  BURN_AMOUNTS := mainnetBURN_AMOUNTS
  BURN_ADDRESSES := mainnetBURN_ADDRESSES

/-- The `AIPGTestnet` class of `constants.py` (its legacy `CHECKPOINTS` is the
literal empty list, not a resource read). -/
def AIPGTestnet (fs : String → ReadOutcome) : NetProfile where
  NET_NAME := "testnet"
  TESTNET := true
  WIF_PREFIX := 239
  ADDRTYPE_P2PKH := 23
  ADDRTYPE_P2SH := 23
  ADDRTYPE_P2SH_ALT := 23
  SEGWIT_HRP := "tc"
  GENESIS := "000000f798386703ae778eeaf8a2f426dc2715eb8989b4226cddc1681b567760"
  CHECKPOINTS := PyJson.arr []
  DGW_CHECKPOINTS := read_json fs "checkpoints_dgw_testnet.json" (PyJson.arr [])
  DGW_CHECKPOINTS_SPACING := 2016
  DGW_CHECKPOINTS_START := 0
  MATURE := 60
  XPRV_HEADERS := testnetXPRV_HEADERS
  XPRV_HEADERS_INV := inv_dict testnetXPRV_HEADERS
  XPUB_HEADERS := testnetXPUB_HEADERS
  XPUB_HEADERS_INV := inv_dict testnetXPUB_HEADERS
  BURN_AMOUNTS := testnetBURN_AMOUNTS
  BURN_ADDRESSES := testnetBURN_ADDRESSES

/-- `AbstractNet.max_legacy_checkpoint`:
`max(0, len(cls.CHECKPOINTS) * 2016 - 1)`; `len` raises when the decoded
resource is not a sized value. -/
def max_legacy_checkpoint (cls : NetProfile) : Except PyErr Int :=
  (pyLen cls.CHECKPOINTS).map (fun n => max 0 ((n : Int) * 2016 - 1))

/-- `AbstractNet.max_checkpoint`:
`max(0, cls.DGW_CHECKPOINTS_START + (len(cls.DGW_CHECKPOINTS) * cls.DGW_CHECKPOINTS_SPACING) - 1)`. -/
def max_checkpoint (cls : NetProfile) : Except PyErr Int :=
  (pyLen cls.DGW_CHECKPOINTS).map
    (fun n =>
      max 0 (cls.DGW_CHECKPOINTS_START + (n : Int) * cls.DGW_CHECKPOINTS_SPACING - 1))

/-- Value of one hexadecimal digit, as accepted by `bytes.fromhex`. -/
def hexDigitVal (c : Char) : Option Nat :=
  if ('0' ≤ c ∧ c ≤ '9') then some (c.toNat - Char.toNat '0')
  else if ('a' ≤ c ∧ c ≤ 'f') then some (c.toNat - Char.toNat 'a' + 10)
  else if ('A' ≤ c ∧ c ≤ 'F') then some (c.toNat - Char.toNat 'A' + 10)
  else none

/-- `bytes.fromhex` on the character list of a hex string: consecutive pairs
of hex digits become bytes; an odd-length string or a non-hex character is a
decode error (`none`). -/
def hexPairs : List Char → Option (List Nat)
  | [] => some []
  | [_] => none
  | c1 :: c2 :: rest =>
    match hexDigitVal c1, hexDigitVal c2, hexPairs rest with
    | some h, some l, some bs => some ((16 * h + l) :: bs)
    | _, _, _ => none

/-- `bytes.fromhex` on a string. -/
def bytes_fromhex (s : String) : Option (List Nat) :=
  hexPairs s.data

/-- Modelled from the spec: `electrum.bitcoin.rev_hex`, used by
`AbstractNet.rev_genesis_bytes`, lives in `electrum/bitcoin.py` which is not
under `src/`.  The spec describes the operation as decoding the genesis hex
string and reversing its byte order, so
`bytes.fromhex(bitcoin.rev_hex(cls.GENESIS))` is modelled as hex decoding
followed by byte-wise reversal, failing when the string is not valid
even-length hex. -/
def rev_genesis_bytes (cls : NetProfile) : Option (List Nat) :=
  (bytes_fromhex cls.GENESIS).map List.reverse

/-- The 32 bytes obtained by hex-decoding the mainnet GENESIS string (the
display-order bytes, before the byte-order reversal). -/
def mainnetGenesisDecoded : List Nat :=
  [0, 0, 0, 254, 140, 153, 167, 170, 204, 90, 255, 7, 66, 120, 168, 55,
   142, 98, 92, 13, 2, 228, 137, 77, 184, 240, 155, 171, 24, 95, 78, 182]

/-- A filesystem with every bundled resource missing. -/
def fsEmpty : String → ReadOutcome := fun _ => ReadOutcome.missing

/-- A filesystem where every bundled resource is present but malformed. -/
def fsMalformed : String → ReadOutcome := fun _ => ReadOutcome.malformed

/-- A filesystem whose mainnet DGW checkpoint resource parses to a 5000-entry
list (the concrete scenario of the checkpoint-arithmetic claim). -/
def fs5000 : String → ReadOutcome := fun name =>
  if name = "checkpoints_dgw.json" then
    ReadOutcome.parsed (PyJson.arr (List.replicate 5000 PyJson.null))
  else ReadOutcome.missing

/-- Value categories of module-level bindings of `constants.py` that matter
for resolving the names the network selector uses. -/
inductive PyBinding : Type
  | mainnetClass
  | testnetClass
  | other (kind : String)
deriving DecidableEq

/-- The module-level global bindings created by executing `constants.py` top
to bottom, in order: imports, the two helper functions, the URL and BIP39
constants, the two NamedTuple classes, the three net classes, the reflection
helper and `NETS_LIST`.  The function names `set_mainnet` / `set_testnet`
(defined after the failing `net = RavencoinMainnet` line on the intended run)
are included as well; their presence does not affect resolution of the two
`Ravencoin*` names, which no statement of the module ever binds. -/
def moduleGlobals : List (String × PyBinding) :=
  [("os", PyBinding.other "module"),
   ("json", PyBinding.other "module"),
   ("inv_dict", PyBinding.other "function"),
   ("read_json", PyBinding.other "function"),
   ("GIT_REPO_URL", PyBinding.other "str"),
   ("GIT_REPO_ISSUES_URL", PyBinding.other "str"),
   ("BIP39_WALLET_FORMATS", PyBinding.other "list"),
   ("BurnAmounts", PyBinding.other "class"),
   ("BurnAddresses", PyBinding.other "class"),
   ("AbstractNet", PyBinding.other "class"),
   ("AIPGMainnet", PyBinding.mainnetClass),
   ("AIPGTestnet", PyBinding.testnetClass),
   ("all_subclasses", PyBinding.other "function"),
   ("NETS_LIST", PyBinding.other "tuple"),
   ("set_mainnet", PyBinding.other "function"),
   ("set_testnet", PyBinding.other "function")]

/-- Python name resolution in the module's global scope: an unbound name
raises `NameError`. -/
def resolveGlobal (s : String) : Except PyErr PyBinding :=
  match dictLookup moduleGlobals s with
  | some v => Except.ok v
  | none => Except.error (PyErr.nameError s)

/-- The module-level statement `net = RavencoinMainnet` (line 269 of
`constants.py`): evaluating the right-hand side name produces the initial
active profile, or raises. -/
def moduleNetInit : Except PyErr PyBinding :=
  resolveGlobal "RavencoinMainnet"

/-- `set_mainnet()`: `global net; net = RavencoinMainnet` — the value the
global `net` is rebound to, or the error the call raises. -/
def set_mainnet : Except PyErr PyBinding :=
  resolveGlobal "RavencoinMainnet"

/-- `set_testnet()`: `global net; net = RavencoinTestnet` — the value the
global `net` is rebound to, or the error the call raises. -/
def set_testnet : Except PyErr PyBinding :=
  resolveGlobal "RavencoinTestnet"

end ElectrumConstants

namespace ElectrumConstants

/-- C6: within each profile both XPRV_HEADERS and XPUB_HEADERS are injective
(no two of the five scheme identifiers share a 32-bit version integer), and
composing the computed inverse map with the forward map is the identity on
scheme identifiers. -/
theorem xkey_headers_injective :
    (mainnetXPRV_HEADERS.map (fun p => p.2)).Nodup ∧
    (mainnetXPUB_HEADERS.map (fun p => p.2)).Nodup ∧
    (testnetXPRV_HEADERS.map (fun p => p.2)).Nodup ∧
    (testnetXPUB_HEADERS.map (fun p => p.2)).Nodup ∧
    (∀ p ∈ mainnetXPRV_HEADERS,
      dictLookup (inv_dict mainnetXPRV_HEADERS) p.2 = some p.1) ∧
    (∀ p ∈ mainnetXPUB_HEADERS,
      dictLookup (inv_dict mainnetXPUB_HEADERS) p.2 = some p.1) ∧
    (∀ p ∈ testnetXPRV_HEADERS,
      dictLookup (inv_dict testnetXPRV_HEADERS) p.2 = some p.1) ∧
    (∀ p ∈ testnetXPUB_HEADERS,
      dictLookup (inv_dict testnetXPUB_HEADERS) p.2 = some p.1) := by
  decide

/-- Witness for the header-injectivity statement, evaluated at the mainnet
standard xprv entry. -/
theorem xkey_headers_injective_witness :
    dictLookup (inv_dict mainnetXPRV_HEADERS) 0x0488ade4 = some "standard" :=
  xkey_headers_injective.2.2.2.2.1 ("standard", 0x0488ade4) (by decide)

/-- C5, counterexample: building the inverse of a private-key version map that
assigns the same version integer to both `standard` and `p2wpkh` raises no
error at all — `inv_dict` succeeds and returns a one-entry inverse in which the
later scheme identifier has silently overwritten the earlier one, refuting the
claim that construction fails fast on a duplicate. -/
theorem inv_dict_duplicate_raises_nothing :
    inv_dict dupVersionMap = [(0x0488ade4, "p2wpkh")] ∧
    dictLookup (inv_dict dupVersionMap) 0x0488ade4 = some "p2wpkh" ∧
    (inv_dict dupVersionMap).length = 1 := by
  decide

/-- C5, amended: constructing the inverse of a version map whose two distinct
scheme identifiers share one version integer does not raise; `inv_dict`
silently keeps exactly the last-inserted scheme identifier for the duplicated
integer and the earlier entry is lost. -/
theorem inv_dict_duplicate_overwrites (k1 k2 : String) (v : Nat)
    (h : k1 ≠ k2) :
    inv_dict [(k1, v), (k2, v)] = [(v, k2)] ∧
    dictLookup (inv_dict [(k1, v), (k2, v)]) v = some k2 := by
  simp [inv_dict, dictInsert, dictLookup]

/-- Witness for the amended duplicate-version statement at the concrete
`standard` / `p2wpkh` scenario. -/
theorem inv_dict_duplicate_overwrites_witness :
    inv_dict [("standard", (0x0488ade4 : Nat)), ("p2wpkh", 0x0488ade4)] =
      [(0x0488ade4, "p2wpkh")] ∧
    dictLookup
      (inv_dict [("standard", (0x0488ade4 : Nat)), ("p2wpkh", 0x0488ade4)])
      0x0488ade4 = some "p2wpkh" :=
  inv_dict_duplicate_overwrites "standard" "p2wpkh" 0x0488ade4 (by decide)

/-- C2: the module binding `net = RavencoinMainnet` and the bodies of
`set_mainnet` and `set_testnet` each reference a name that no statement of the
module ever binds (the profile classes are `AIPGMainnet` and `AIPGTestnet`),
so module initialization and both switch operations raise a NameError instead
of producing an active profile. -/
theorem ravencoin_names_unbound :
    (∀ p ∈ moduleGlobals,
      p.1 ≠ "RavencoinMainnet" ∧ p.1 ≠ "RavencoinTestnet") ∧
    moduleNetInit = Except.error (PyErr.nameError "RavencoinMainnet") ∧
    set_mainnet = Except.error (PyErr.nameError "RavencoinMainnet") ∧
    set_testnet = Except.error (PyErr.nameError "RavencoinTestnet") :=
  ⟨by decide, rfl, rfl, rfl⟩

/-- Witness for the unbound-names statement, evaluated at the binding of the
actually defined mainnet class. -/
theorem ravencoin_names_unbound_witness :
    "AIPGMainnet" ≠ "RavencoinMainnet" ∧ "AIPGMainnet" ≠ "RavencoinTestnet" :=
  ravencoin_names_unbound.1 ("AIPGMainnet", PyBinding.mainnetClass) (by decide)

/-- C1: calling `set_testnet()` does not make reads return the Testnet WIF
prefix 239 — it raises a NameError for `RavencoinTestnet`, and `set_mainnet()`
likewise raises for `RavencoinMainnet`; the profiles the spec intends to be
activated do carry WIF prefix 239 (Testnet) and 128 (Mainnet). -/
theorem set_testnet_raises_instead_of_switching :
    set_testnet = Except.error (PyErr.nameError "RavencoinTestnet") ∧
    set_mainnet = Except.error (PyErr.nameError "RavencoinMainnet") ∧
    (∀ fs : String → ReadOutcome,
      NetProfile.WIF_PREFIX (AIPGTestnet fs) = 239 ∧
      NetProfile.WIF_PREFIX (AIPGMainnet fs) = 128) :=
  ⟨rfl, rfl, fun fs => ⟨rfl, rfl⟩⟩

/-- Witness for the failed-switch statement, reading the two profiles over the
empty filesystem. -/
theorem set_testnet_raises_instead_of_switching_witness :
    NetProfile.WIF_PREFIX (AIPGTestnet fsEmpty) = 239 ∧
    NetProfile.WIF_PREFIX (AIPGMainnet fsEmpty) = 128 :=
  set_testnet_raises_instead_of_switching.2.2 fsEmpty

/-- C3: for every profile the DGW height bound follows the spec formula
`max(0, dgw_start + dgw_count * dgw_spacing - 1)`, and for a profile with DGW
start 338688, spacing 2016 and 5000 DGW checkpoints it returns 10418687. -/
theorem max_checkpoint_formula :
    (∀ (P : NetProfile) (n : Nat),
      pyLen P.DGW_CHECKPOINTS = Except.ok n →
        max_checkpoint P =
          Except.ok (max 0 (P.DGW_CHECKPOINTS_START +
            (n : Int) * P.DGW_CHECKPOINTS_SPACING - 1))) ∧
    (∀ P : NetProfile,
      P.DGW_CHECKPOINTS_START = 338688 →
      P.DGW_CHECKPOINTS_SPACING = 2016 →
      pyLen P.DGW_CHECKPOINTS = Except.ok 5000 →
        max_checkpoint P = Except.ok 10418687) := by
  constructor
  · intro P n h
    simp [max_checkpoint, h, Except.map]
  · intro P h1 h2 h3
    simp [max_checkpoint, h1, h2, h3, Except.map]

set_option maxRecDepth 4000 in
/-- Witness for the DGW bound formula: the mainnet profile built over a
filesystem whose DGW resource decodes to a 5000-entry list reaches exactly
height 10418687. -/
theorem max_checkpoint_formula_witness :
    max_checkpoint (AIPGMainnet fs5000) = Except.ok 10418687 :=
  max_checkpoint_formula.2 (AIPGMainnet fs5000)
    (by norm_num [AIPGMainnet])
    (by rfl)
    (by
      have h1 : NetProfile.DGW_CHECKPOINTS (AIPGMainnet fs5000) =
          PyJson.arr (List.replicate 5000 PyJson.null) := rfl
      have h2 : pyLen (PyJson.arr (List.replicate 5000 PyJson.null)) =
          Except.ok (List.replicate 5000 PyJson.null).length := rfl
      rw [h1, h2, List.length_replicate])

/-- C4: for every profile the legacy height bound follows the spec formula
`max(0, legacy_count * 2016 - 1)`, and it is 0 whenever the legacy checkpoint
list is empty. -/
theorem max_legacy_checkpoint_formula :
    (∀ (P : NetProfile) (n : Nat),
      pyLen P.CHECKPOINTS = Except.ok n →
        max_legacy_checkpoint P = Except.ok (max 0 ((n : Int) * 2016 - 1))) ∧
    (∀ P : NetProfile,
      P.CHECKPOINTS = PyJson.arr [] → max_legacy_checkpoint P = Except.ok 0) := by
  constructor
  · intro P n h
    simp [max_legacy_checkpoint, h, Except.map]
  · intro P h
    simp [max_legacy_checkpoint, h, pyLen, Except.map]

/-- Witness for the legacy bound formula at the testnet profile, whose legacy
checkpoint list is the literal empty list. -/
theorem max_legacy_checkpoint_formula_witness :
    max_legacy_checkpoint (AIPGTestnet fsEmpty) = Except.ok 0 :=
  max_legacy_checkpoint_formula.2 (AIPGTestnet fsEmpty) (by rfl)

/-- C7: whenever the profile's GENESIS is valid even-length hex, the genesis
byte accessor returns exactly the byte-wise reversal of the decoded hex, so
reversing its result recovers the decoded bytes; on a string that is not valid
even-length hex it fails with a decode error. -/
theorem rev_genesis_bytes_reversal :
    (∀ (P : NetProfile) (bs : List Nat),
      bytes_fromhex (NetProfile.GENESIS P) = some bs →
        rev_genesis_bytes P = some bs.reverse ∧
        (rev_genesis_bytes P).map List.reverse = some bs) ∧
    (∀ P : NetProfile,
      bytes_fromhex (NetProfile.GENESIS P) = none →
        rev_genesis_bytes P = none) := by
  constructor
  · intro P bs h
    simp [rev_genesis_bytes, h]
  · intro P h
    simp [rev_genesis_bytes, h]

/-- Witness for the genesis reversal at concrete inputs: the mainnet profile's
GENESIS decodes to its 32 bytes and is reversed; a profile whose GENESIS is
the odd-length string "abc" fails to decode. -/
theorem rev_genesis_bytes_reversal_witness :
    (rev_genesis_bytes (AIPGMainnet fsEmpty) =
      some (mainnetGenesisDecoded.reverse) ∧
     (rev_genesis_bytes (AIPGMainnet fsEmpty)).map List.reverse =
      some mainnetGenesisDecoded) ∧
    rev_genesis_bytes { AIPGMainnet fsEmpty with GENESIS := "abc" } = none :=
  ⟨rev_genesis_bytes_reversal.1 (AIPGMainnet fsEmpty) mainnetGenesisDecoded
      (by decide),
   rev_genesis_bytes_reversal.2 { AIPGMainnet fsEmpty with GENESIS := "abc" }
      (by decide)⟩

/-- C8: `read_json` returns the supplied default whenever the resource is
missing or malformed, and a corrupt legacy-checkpoint resource leaves the
mainnet profile with an empty legacy table and a legacy height bound of 0,
without raising. -/
theorem read_json_degrades_to_default :
    (∀ (fs : String → ReadOutcome) (filename : String) (d : PyJson),
      fs filename = ReadOutcome.missing ∨ fs filename = ReadOutcome.malformed →
        read_json fs filename d = d) ∧
    (∀ fs : String → ReadOutcome,
      fs "checkpoints.json" = ReadOutcome.malformed →
        NetProfile.CHECKPOINTS (AIPGMainnet fs) = PyJson.arr [] ∧
        max_legacy_checkpoint (AIPGMainnet fs) = Except.ok 0) := by
  constructor
  · intro fs filename d h
    rcases h with h | h <;> simp [read_json, h]
  · intro fs h
    constructor
    · simp [AIPGMainnet, read_json, h]
    · simp [max_legacy_checkpoint, AIPGMainnet, read_json, h, pyLen,
        Except.map]

/-- Witness for resource degradation: the all-malformed filesystem yields the
default for an arbitrary file and a zero legacy bound for mainnet. -/
theorem read_json_degrades_to_default_witness :
    read_json fsMalformed "checkpoints.json" (PyJson.arr []) = PyJson.arr [] ∧
    max_legacy_checkpoint (AIPGMainnet fsMalformed) = Except.ok 0 :=
  ⟨read_json_degrades_to_default.1 fsMalformed "checkpoints.json"
      (PyJson.arr []) (Or.inr rfl),
   (read_json_degrades_to_default.2 fsMalformed rfl).2⟩

/-- C9: in both constructed profiles every one of the nine amount-bearing
operation kinds has exactly one burn amount, that amount is non-negative, and
every one of the ten address-bearing kinds has exactly one burn address; the
lookup functions are total over the fixed enumerations, so the tables are
exhaustive by construction. -/
theorem burn_tables_exhaustive_and_nonneg :
    (∀ k : AssetOpKind,
      0 ≤ burnAmount mainnetBURN_AMOUNTS k ∧
      0 ≤ burnAmount testnetBURN_AMOUNTS k) ∧
    (∀ k : AssetOpKind, ∃! a : ℚ, burnAmount mainnetBURN_AMOUNTS k = a) ∧
    (∀ k : AssetOpKind, ∃! a : ℚ, burnAmount testnetBURN_AMOUNTS k = a) ∧
    (∀ k : AddressedOpKind,
      ∃! a : String, burnAddress mainnetBURN_ADDRESSES k = a) ∧
    (∀ k : AddressedOpKind,
      ∃! a : String, burnAddress testnetBURN_ADDRESSES k = a) := by
  refine ⟨fun k => ?_, fun k => ⟨_, rfl, fun y hy => hy.symm⟩,
    fun k => ⟨_, rfl, fun y hy => hy.symm⟩,
    fun k => ⟨_, rfl, fun y hy => hy.symm⟩,
    fun k => ⟨_, rfl, fun y hy => hy.symm⟩⟩
  cases k <;>
    constructor <;>
      norm_num [burnAmount, mainnetBURN_AMOUNTS, testnetBURN_AMOUNTS]

/-- Witness for the burn-table statement at two concrete operation kinds (the
fractional-amount kind and the global catch-all). -/
theorem burn_tables_exhaustive_and_nonneg_witness :
    (0 ≤ burnAmount mainnetBURN_AMOUNTS AssetOpKind.issueUniqueAsset ∧
     0 ≤ burnAmount testnetBURN_AMOUNTS AssetOpKind.issueUniqueAsset) ∧
    ∃! a : String,
      burnAddress mainnetBURN_ADDRESSES AddressedOpKind.globalBurn = a :=
  ⟨burn_tables_exhaustive_and_nonneg.1 AssetOpKind.issueUniqueAsset,
   burn_tables_exhaustive_and_nonneg.2.2.2.1 AddressedOpKind.globalBurn⟩

/-- C10: in both profiles the P2PKH and P2SH version bytes are all 23, equal
to each other and across networks, so an address version byte distinguishes
neither the script type nor the network. -/
theorem addrtype_bytes_all_23 :
    ∀ fs : String → ReadOutcome,
      NetProfile.ADDRTYPE_P2PKH (AIPGMainnet fs) = 23 ∧
      NetProfile.ADDRTYPE_P2SH (AIPGMainnet fs) = 23 ∧
      NetProfile.ADDRTYPE_P2PKH (AIPGTestnet fs) = 23 ∧
      NetProfile.ADDRTYPE_P2SH (AIPGTestnet fs) = 23 ∧
      NetProfile.ADDRTYPE_P2PKH (AIPGMainnet fs) =
        NetProfile.ADDRTYPE_P2SH (AIPGMainnet fs) ∧
      NetProfile.ADDRTYPE_P2PKH (AIPGTestnet fs) =
        NetProfile.ADDRTYPE_P2SH (AIPGTestnet fs) ∧
      NetProfile.ADDRTYPE_P2PKH (AIPGMainnet fs) =
        NetProfile.ADDRTYPE_P2PKH (AIPGTestnet fs) := by
  intro fs
  exact ⟨rfl, rfl, rfl, rfl, rfl, rfl, rfl⟩

/-- Witness for the address-version-byte statement over the empty
filesystem. -/
theorem addrtype_bytes_all_23_witness :
    NetProfile.ADDRTYPE_P2PKH (AIPGMainnet fsEmpty) = 23 ∧
    NetProfile.ADDRTYPE_P2SH (AIPGMainnet fsEmpty) = 23 ∧
    NetProfile.ADDRTYPE_P2PKH (AIPGTestnet fsEmpty) = 23 ∧
    NetProfile.ADDRTYPE_P2SH (AIPGTestnet fsEmpty) = 23 ∧
    NetProfile.ADDRTYPE_P2PKH (AIPGMainnet fsEmpty) =
      NetProfile.ADDRTYPE_P2SH (AIPGMainnet fsEmpty) ∧
    NetProfile.ADDRTYPE_P2PKH (AIPGTestnet fsEmpty) =
      NetProfile.ADDRTYPE_P2SH (AIPGTestnet fsEmpty) ∧
    NetProfile.ADDRTYPE_P2PKH (AIPGMainnet fsEmpty) =
      NetProfile.ADDRTYPE_P2PKH (AIPGTestnet fsEmpty) :=
  addrtype_bytes_all_23 fsEmpty

end ElectrumConstants
